import Mathlib

/-!
Shallow embedding of packages/shared/assetdb.ts: the compression-transparent
asset persistence layer (content-type allow-lists, codec dispatch on write,
magic-number codec detection on read, save/read orchestration and the
metadata sidecar).

Byte buffers are modelled as lists of naturals (one per byte).  The external
compression libraries (zstd.ts, lz4, zlib) are not part of this repository;
they enter the embedding as the fields of the structure ExtCodecLib, and the
repository's own logic (compress, getDataType, decompress, saveAsset,
readAsset, createAssetReadStream, getAssetSize, saveAssetFromFile) is
translated from the source on top of them.
-/

namespace AssetDb

/-- A byte buffer: Node's Buffer, one natural per byte. -/
abbrev Bytes := List Nat

/-! ### Content-type allow-lists (assetdb.ts lines 18-51)

The source builds JS Sets by spreading earlier sets; membership is all that
is ever used, so each Set is modelled as the list of elements in insertion
order (the spread of IMAGE_ASSET_TYPES followed by the extra entries). -/

/-- IMAGE_ASSET_TYPES (lines 27-31). -/
def IMAGE_ASSET_TYPES : List String :=
  ["image/jpeg", "image/png", "image/webp"]

/-- SUPPORTED_UPLOAD_ASSET_TYPES (lines 34-38): the images plus text/html
and application/pdf. -/
def SUPPORTED_UPLOAD_ASSET_TYPES : List String :=
  IMAGE_ASSET_TYPES ++ ["text/html", "application/pdf"]

/-- SUPPORTED_BOOKMARK_ASSET_TYPES (lines 41-44): the images plus
application/pdf. -/
def SUPPORTED_BOOKMARK_ASSET_TYPES : List String :=
  IMAGE_ASSET_TYPES ++ ["application/pdf"]

/-- SUPPORTED_ASSET_TYPES (lines 47-51): the upload types plus text/html
(already present, deduplicated by the JS Set) and video/mp4.  Modelled as a
list; duplicate entries do not change membership. -/
def SUPPORTED_ASSET_TYPES : List String :=
  SUPPORTED_UPLOAD_ASSET_TYPES ++ ["text/html", "video/mp4"]

/-- The metadata sidecar record, zAssetMetadataSchema (lines 57-61):
contentType mandatory, fileName and originalSize nullish (none models both
null and absent). -/
structure AssetMetadata where
  contentType : String
  fileName : Option String
  originalSize : Option Int
deriving DecidableEq

/-- The configuration the module reads from serverConfig (lines 13-16). -/
structure ServerConfig where
  assetsDir : String
  compressionType : String
  compressionLevel : Int
deriving DecidableEq

/-- The external compression libraries, abstracted.  zstdDecompress and
lz4DecodeBlock return none where the library call throws; lz4EncodeBlockHC
stands for the prefix of the output buffer holding the compressed block
(the source truncates the buffer to the returned compressedSize);
lz4DecodeBlock receives the capacity of the output buffer the caller
allocated.  zlib's gzip and gunzip do not appear: the source invokes them
with callbacks whose results are discarded (see compress and decompress). -/
structure ExtCodecLib where
  zstdCompress : Int → Bytes → Bytes
  zstdDecompress : Bytes → Option Bytes
  lz4EncodeBlockHC : Bytes → Int → Bytes
  lz4DecodeBlock : Bytes → Nat → Option Bytes

/-- Buffer.subarray(s, e) for non-negative arguments: the bytes from index s
up to (excluding) e, both clamped to the buffer length. -/
def bufSubarray (data : Bytes) (s e : Nat) : Bytes :=
  (data.take e).drop s

/-- compress (lines 332-374).  The gzip case calls zlib.gzip with a callback
and then synchronously returns [data, ""]; the callback's value is discarded,
so the gzip branch stores the input uncompressed with no suffix (the latent
no-op noted in the design).  The zstd level is clamped to [1, 19], the lz4
level to [3, 12] (compressionLevel is modelled as an integer, so Math.floor
is the identity). -/
def compress (lib : ExtCodecLib) (compressionLevel : Int) (data : Bytes)
    (type : String) : Bytes × String :=
  if type = "zstd" then
    (lib.zstdCompress (min (max compressionLevel 1) 19) data, ".zst")
  else if type = "lz4" then
    (lib.lz4EncodeBlockHC data (min (max compressionLevel 3) 12), ".lz4")
  else if type = "gzip" then
    (data, "")
  else
    (data, "")

/-- The zstd frame magic 28 B5 2F FD (line 386). -/
def zstdMagic : Bytes := [0x28, 0xb5, 0x2f, 0xfd]

/-- The gzip magic 1F 8B (line 391). -/
def gzipMagic : Bytes := [0x1f, 0x8b]

/-- The lz4 frame magic 04 22 4D 18 (line 396). -/
def lz4Magic : Bytes := [0x04, 0x22, 0x4d, 0x18]

/-- getDataType (lines 376-402): buffers shorter than 4 bytes are
unrecognized; otherwise the zstd, gzip and lz4 signatures are tried in that
order on the buffer's prefix.  The empty string is the source's
no-codec value. -/
def getDataType (data : Bytes) : String :=
  if data.length < 4 then ""
  else if bufSubarray data 0 4 = zstdMagic then "zstd"
  else if bufSubarray data 0 2 = gzipMagic then "gzip"
  else if bufSubarray data 0 4 = lz4Magic then "lz4"
  else ""

/-- decompress (lines 404-444).  zstd: the library call, falling back to the
input bytes when it throws.  lz4: decodeBlock into a buffer of the input's
length, truncated to the decoded size, falling back to the input on a throw.
gzip: zlib.gunzip is invoked with a callback whose value is discarded and
the input is returned unchanged (line 438).  Unrecognized: passthrough. -/
def decompress (lib : ExtCodecLib) (data : Bytes) (type : String) : Bytes :=
  if type = "zstd" then
    (lib.zstdDecompress data).getD data
  else if type = "lz4" then
    (lib.lz4DecodeBlock data data.length).getD data
  else if type = "gzip" then
    data
  else
    data

/-! ### The store

One asset directory after a completed save holds exactly one payload file
asset.bin plus extension and one metadata.json sidecar; AssetDirState is
that directory's content.  Filesystem effects are recorded as a trace of
FsOp values so that what an operation touches on disk (and in which order)
is part of its meaning. -/

/-- The content of one asset directory: the single payload file's extension
and bytes, and the parsed sidecar. -/
structure AssetDirState where
  payloadExt : String
  payload : Bytes
  metadataJson : AssetMetadata
deriving DecidableEq

/-- One filesystem operation performed by the store. -/
inductive FsOp where
  | mkdir : String → FsOp
  | write : String → FsOp
  | copy : String → String → FsOp
  | rm : String → FsOp
deriving DecidableEq

/-- getAssetDir (lines 53-55): root/userId/assetId. -/
def getAssetDir (root userId assetId : String) : String :=
  root ++ "/" ++ userId ++ "/" ++ assetId

/-- The extensions getAssetPath probes, in order (line 132). -/
def knownExts : List String := ["", ".zst", ".lz4", ".gz"]

/-- getAssetPath (lines 131-142) over the one-payload-file directory model:
the file is found exactly when its extension is one of the probed ones;
none models the empty-string not-found result. -/
def getAssetPath (st : AssetDirState) : Option String :=
  if st.payloadExt ∈ knownExts then some ("asset.bin" ++ st.payloadExt)
  else none

/-- saveAsset (lines 67-98).  Returns the trace of filesystem operations and
either the resulting directory content paired with the caller's metadata
object as it stands after the call (line 84 mutates it in place, setting
originalSize to the input's byte length), or the thrown error.  The
unsupported-type check precedes every filesystem operation, so the failing
trace is empty. -/
def saveAsset (lib : ExtCodecLib) (cfg : ServerConfig)
    (userId assetId : String) (asset : Bytes) (metadata : AssetMetadata) :
    List FsOp × Except String (AssetDirState × AssetMetadata) :=
  if metadata.contentType ∈ SUPPORTED_ASSET_TYPES then
    let assetDir := getAssetDir cfg.assetsDir userId assetId
    let metadataMut : AssetMetadata :=
      { metadata with originalSize := some (asset.length : Int) }
    let c := compress lib cfg.compressionLevel asset cfg.compressionType
    ([FsOp.mkdir assetDir,
      FsOp.write (assetDir ++ "/asset.bin" ++ c.2),
      FsOp.write (assetDir ++ "/metadata.json")],
     Except.ok
       ({ payloadExt := c.2, payload := c.1, metadataJson := metadataMut },
        metadataMut))
  else ([], Except.error "Unsupported asset type")

/-- saveAssetFromFile (lines 100-129).  The copy and the sidecar write run
under Promise.all; the source file is removed only by the rm that follows
the awaited Promise.all, so a failure of either concurrent operation
surfaces the error and the rm never runs.  copyOk and metaOk inject the
success or failure of the two concurrent operations; a failed operation
leaves no effect in the trace. -/
def saveAssetFromFile (cfg : ServerConfig) (userId assetId : String)
    (assetPath : String) (metadata : AssetMetadata)
    (copyOk metaOk : Bool) : List FsOp × Except String Unit :=
  if metadata.contentType ∈ SUPPORTED_ASSET_TYPES then
    let assetDir := getAssetDir cfg.assetsDir userId assetId
    ([FsOp.mkdir assetDir]
       ++ (if copyOk then [FsOp.copy assetPath (assetDir ++ "/asset.bin")] else [])
       ++ (if metaOk then [FsOp.write (assetDir ++ "/metadata.json")] else [])
       ++ (if copyOk && metaOk then [FsOp.rm assetPath] else []),
     if copyOk && metaOk then Except.ok ()
     else Except.error "copy or metadata write failed")
  else ([], Except.error "Unsupported asset type")

/-- readAsset (lines 144-170): locate the payload file, read its bytes,
decode them with the codec detected from the bytes themselves, and return
them with the parsed sidecar.  cfg is the module configuration in scope at
the call; the body never consults it. -/
def readAsset (lib : ExtCodecLib) (cfg : ServerConfig) (st : AssetDirState) :
    Except String (Bytes × AssetMetadata) :=
  match getAssetPath st with
  | none => Except.error "Asset file not found"
  | some _ =>
      Except.ok (decompress lib st.payload (getDataType st.payload),
                 st.metadataJson)

/-- createAssetReadStream (lines 172-201): same resolution and decoding as
readAsset; the decompressed bytes are sliced with subarray(start, end) only
when both bounds are given, else pushed whole.  The stream's pushed bytes
are returned; a missing payload file is the error Node's readFile would
throw on the empty path. -/
def createAssetReadStream (lib : ExtCodecLib) (cfg : ServerConfig)
    (st : AssetDirState) (start? end? : Option Nat) : Except String Bytes :=
  match getAssetPath st with
  | none => Except.error "ENOENT"
  | some _ =>
      let d := decompress lib st.payload (getDataType st.payload)
      match start?, end? with
      | some s, some e => Except.ok (bufSubarray d s e)
      | some _, none => Except.ok d
      | none, some _ => Except.ok d
      | none, none => Except.ok d

/-- getAssetSize (lines 222-239): the sidecar's originalSize when it is a
number, else the stat size of the located payload file (in the directory
model, the payload's byte length). -/
def getAssetSize (st : AssetDirState) : Int :=
  match st.metadataJson.originalSize with
  | some size => size
  | none => (st.payload.length : Int)

/-- saveAsset followed by readAsset on the directory it produced: the bytes
the reader gets back, or none when either operation fails. -/
def saveThenRead (lib : ExtCodecLib) (cfg : ServerConfig)
    (userId assetId : String) (asset : Bytes) (metadata : AssetMetadata) :
    Option Bytes :=
  match (saveAsset lib cfg userId assetId asset metadata).2 with
  | Except.ok (st, _) =>
      match readAsset lib cfg st with
      | Except.ok (bytes, _) => some bytes
      | Except.error _ => none
  | Except.error _ => none

/-- A concrete instantiation of the external libraries, for evaluating the
pipeline on small inputs.  The zstd pair is a stand-in frame codec whose
output carries the zstd magic.  lz4EncodeBlockHC is exact on inputs shorter
than 13 bytes: such an input cannot contain a match (the block format's
minimum match length plus its end-of-block literal requirement need 13
bytes), so the encoder emits one literal-only sequence, a token byte holding
the literal count in its high nibble followed by the literals; this model is
only ever evaluated on such inputs.  lz4DecodeBlock decodes exactly those
literal-only blocks. -/
def concreteLib : ExtCodecLib where
  zstdCompress := fun _ data => zstdMagic ++ data
  zstdDecompress := fun data =>
    if data.take 4 = zstdMagic then some (data.drop 4) else none
  lz4EncodeBlockHC := fun data _ => (16 * data.length) :: data
  lz4DecodeBlock := fun data cap =>
    match data with
    | [] => none
    | t :: rest => if t = 16 * rest.length ∧ rest.length ≤ cap
                   then some rest else none

end AssetDb

namespace AssetDb

/-- C2: the bytes a read returns do not depend on the configured codec: for
any fixed on-disk directory content, readAsset under configuration A equals
readAsset under configuration B — decoding is driven solely by getDataType
on the stored bytes (a two-run noninterference statement: only the
configuration varies between the runs). -/
theorem readAsset_ignores_configured_codec (lib : ExtCodecLib)
    (cfgA cfgB : ServerConfig) (st : AssetDirState) :
    readAsset lib cfgA st = readAsset lib cfgB st := rfl

/-- C3 counterexample: the claim says the direct-upload allow-list contains
neither video/mp4 nor text/html, but text/html is a member of
SUPPORTED_UPLOAD_ASSET_TYPES (assetdb.ts line 36). -/
theorem upload_types_contain_text_html :
    "text/html" ∈ SUPPORTED_UPLOAD_ASSET_TYPES := by decide

/-- C3 amended: the direct-upload allow-list excludes video/mp4 but does
contain text/html; the bookmark-asset allow-list contains neither text/html
nor video/mp4; both are strict subsets of the general storage set, which is
exactly the six types image/jpeg, image/png, image/webp, text/html,
application/pdf, video/mp4. -/
theorem allow_lists_amended :
    "video/mp4" ∉ SUPPORTED_UPLOAD_ASSET_TYPES
    ∧ "text/html" ∈ SUPPORTED_UPLOAD_ASSET_TYPES
    ∧ "text/html" ∉ SUPPORTED_BOOKMARK_ASSET_TYPES
    ∧ "video/mp4" ∉ SUPPORTED_BOOKMARK_ASSET_TYPES
    ∧ SUPPORTED_UPLOAD_ASSET_TYPES.toFinset ⊂ SUPPORTED_ASSET_TYPES.toFinset
    ∧ SUPPORTED_BOOKMARK_ASSET_TYPES.toFinset ⊂ SUPPORTED_ASSET_TYPES.toFinset
    ∧ SUPPORTED_ASSET_TYPES.toFinset =
        {"image/jpeg", "image/png", "image/webp", "text/html",
         "application/pdf", "video/mp4"} := by decide

/-- C4: the gzip branch of compress never produces gzip output or the .gz
suffix: for every library, level and buffer it returns the input bytes
unchanged with the empty suffix, because the zlib callback's result is
discarded (assetdb.ts lines 360-369).  The claim's stated behavior
(compressed bytes, suffix .gz) diverges from this. -/
theorem compress_gzip_passthrough (lib : ExtCodecLib) (lvl : Int)
    (data : Bytes) :
    compress lib lvl data "gzip" = (data, "")
    ∧ (compress lib lvl data "gzip").2 ≠ ".gz" :=
  ⟨rfl, by show ("" : String) ≠ ".gz"; decide⟩

/-- C1: the save-then-read round trip fails under the lz4 codec: saving the
three bytes 97 98 99 stores the raw lz4 block 48 97 98 99 (block format,
no frame magic), getDataType does not recognize it on read, decompress
passes it through, and readAsset returns the compressed block instead of
the original bytes. -/
theorem lz4_roundtrip_fails :
    saveThenRead concreteLib
      { assetsDir := "assets", compressionType := "lz4", compressionLevel := 9 }
      "user1" "asset1" [97, 98, 99]
      { contentType := "text/html", fileName := none, originalSize := none }
      = some [48, 97, 98, 99]
    ∧ (some [48, 97, 98, 99] : Option Bytes) ≠ some [97, 98, 99] := by
  constructor
  · rfl
  · decide

end AssetDb

namespace AssetDb

/-- C6: saveAsset with a contentType outside the general allow-list throws
the unsupported-type error and performs no filesystem operation: the trace
is empty, so in particular no asset directory is created. -/
theorem saveAsset_unsupported_rejected (lib : ExtCodecLib)
    (cfg : ServerConfig) (userId assetId : String) (asset : Bytes)
    (md : AssetMetadata) (h : md.contentType ∉ SUPPORTED_ASSET_TYPES) :
    saveAsset lib cfg userId assetId asset md
      = ([], Except.error "Unsupported asset type") := by
  unfold saveAsset
  rw [if_neg h]

/-- C6 witness: saving an application/zip asset fails with the validation
error and an empty effect trace. -/
theorem saveAsset_unsupported_rejected_witness :
    saveAsset concreteLib
      { assetsDir := "assets", compressionType := "zstd", compressionLevel := 3 }
      "user1" "asset1" [1, 2, 3]
      { contentType := "application/zip", fileName := none, originalSize := none }
      = ([], Except.error "Unsupported asset type") :=
  saveAsset_unsupported_rejected _ _ _ _ _ _ (by decide)

/-- C8: getAssetSize returns the sidecar's originalSize whenever it is a
number, and falls back to the byte length of the on-disk payload file (not
an error) when originalSize is null or absent. -/
theorem getAssetSize_sidecar_or_stat (st : AssetDirState) :
    (∀ n : Int, st.metadataJson.originalSize = some n → getAssetSize st = n)
    ∧ (st.metadataJson.originalSize = none →
        getAssetSize st = (st.payload.length : Int)) := by
  constructor
  · intro n hn
    simp [getAssetSize, hn]
  · intro hn
    simp [getAssetSize, hn]

/-- C10: saveAsset with a supported contentType succeeds, the persisted
sidecar's originalSize is the input buffer's byte length whatever
originalSize the caller supplied, and the caller's metadata object after
the call is the very record that was persisted (the in-place mutation of
line 84), so the caller observes that byte length as well. -/
theorem saveAsset_sets_originalSize (lib : ExtCodecLib) (cfg : ServerConfig)
    (userId assetId : String) (asset : Bytes) (md : AssetMetadata)
    (h : md.contentType ∈ SUPPORTED_ASSET_TYPES) :
    ∃ st mdAfter,
      (saveAsset lib cfg userId assetId asset md).2 = Except.ok (st, mdAfter)
      ∧ st.metadataJson.originalSize = some (asset.length : Int)
      ∧ mdAfter = st.metadataJson
      ∧ mdAfter.originalSize = some (asset.length : Int) := by
  unfold saveAsset
  rw [if_pos h]
  exact ⟨_, _, rfl, rfl, rfl, rfl⟩

/-- C10 witness: saving three bytes with a caller-supplied originalSize of
999 persists and reports originalSize 3. -/
theorem saveAsset_sets_originalSize_witness :
    ∃ st mdAfter,
      (saveAsset concreteLib
        { assetsDir := "assets", compressionType := "zstd", compressionLevel := 3 }
        "user1" "asset1" [7, 8, 9]
        { contentType := "image/png", fileName := none, originalSize := some 999 }).2
        = Except.ok (st, mdAfter)
      ∧ st.metadataJson.originalSize = some ((3 : Nat) : Int)
      ∧ mdAfter = st.metadataJson
      ∧ mdAfter.originalSize = some ((3 : Nat) : Int) :=
  saveAsset_sets_originalSize _ _ _ _ [7, 8, 9] _ (by decide)

end AssetDb

namespace AssetDb

/-- C5: codec detection is exactly signature sniffing on the buffer prefix,
in the priority order zstd, gzip, lz4: it answers zstd exactly when the
first four bytes are 28 B5 2F FD, gzip when the first two are 1F 8B and the
zstd signature did not match, lz4 when the first four are 04 22 4D 18 and
neither earlier signature matched, and the no-codec value for every buffer
shorter than four bytes or matching no signature.  (For a buffer of at
least four bytes, take 4 is its four-byte prefix and take 2 its two-byte
prefix.) -/
theorem getDataType_signature_detection (data : Bytes) :
    (getDataType data = "zstd" ↔ 4 ≤ data.length ∧ data.take 4 = zstdMagic)
    ∧ (getDataType data = "gzip" ↔
        4 ≤ data.length ∧ data.take 2 = gzipMagic ∧ data.take 4 ≠ zstdMagic)
    ∧ (getDataType data = "lz4" ↔
        4 ≤ data.length ∧ data.take 4 = lz4Magic
          ∧ data.take 2 ≠ gzipMagic ∧ data.take 4 ≠ zstdMagic)
    ∧ (data.length < 4 → getDataType data = "")
    ∧ ((data.take 4 ≠ zstdMagic ∧ data.take 2 ≠ gzipMagic ∧ data.take 4 ≠ lz4Magic)
        → getDataType data = "") := by
  have h2 : bufSubarray data 0 2 = data.take 2 := by simp [bufSubarray]
  have h4 : bufSubarray data 0 4 = data.take 4 := by simp [bufSubarray]
  unfold getDataType
  rw [h2, h4]
  split_ifs with hlen hz hg hl <;> simp_all

/-- C7: within saveAssetFromFile (supported content type), the source file
is removed exactly when both the copy into the store and the concurrent
sidecar write succeed; when either fails the rm never runs and the error is
surfaced, and on success the operation completes with the source removed. -/
theorem saveAssetFromFile_source_kept_on_failure (cfg : ServerConfig)
    (userId assetId src : String) (md : AssetMetadata) (copyOk metaOk : Bool)
    (h : md.contentType ∈ SUPPORTED_ASSET_TYPES) :
    (FsOp.rm src ∈ (saveAssetFromFile cfg userId assetId src md copyOk metaOk).1
      ↔ copyOk = true ∧ metaOk = true)
    ∧ (copyOk = true ∧ metaOk = true →
        (saveAssetFromFile cfg userId assetId src md copyOk metaOk).2
          = Except.ok ())
    ∧ (¬(copyOk = true ∧ metaOk = true) →
        (saveAssetFromFile cfg userId assetId src md copyOk metaOk).2
          = Except.error "copy or metadata write failed") := by
  unfold saveAssetFromFile
  rw [if_pos h]
  cases copyOk <;> cases metaOk <;> simp

/-- C7 witness: with a failing copy and a succeeding sidecar write, the rm
of the source file is not in the trace and the error is surfaced; the
theorem instantiated at copyOk false, metaOk true. -/
theorem saveAssetFromFile_source_kept_on_failure_witness :
    (FsOp.rm "/tmp/upload.png" ∈
        (saveAssetFromFile
          { assetsDir := "assets", compressionType := "zstd", compressionLevel := 3 }
          "user1" "asset1" "/tmp/upload.png"
          { contentType := "image/png", fileName := none, originalSize := none }
          false true).1
      ↔ false = true ∧ true = true)
    ∧ (false = true ∧ true = true →
        (saveAssetFromFile
          { assetsDir := "assets", compressionType := "zstd", compressionLevel := 3 }
          "user1" "asset1" "/tmp/upload.png"
          { contentType := "image/png", fileName := none, originalSize := none }
          false true).2 = Except.ok ())
    ∧ (¬(false = true ∧ true = true) →
        (saveAssetFromFile
          { assetsDir := "assets", compressionType := "zstd", compressionLevel := 3 }
          "user1" "asset1" "/tmp/upload.png"
          { contentType := "image/png", fileName := none, originalSize := none }
          false true).2 = Except.error "copy or metadata write failed") :=
  saveAssetFromFile_source_kept_on_failure _ _ _ _ _ _ _ (by decide)

/-- C9: a range read with both bounds 0 <= start <= end <= decompressed
length yields exactly the decompressed bytes from start up to (excluding)
end, whatever codec the stored payload carries (the decoding is the same
signature-driven decompress as readAsset); with either bound omitted it
yields the whole decompressed payload. -/
theorem createAssetReadStream_range (lib : ExtCodecLib) (cfg : ServerConfig)
    (st : AssetDirState) (s e : Nat)
    (hfound : st.payloadExt ∈ knownExts) (hse : s ≤ e)
    (hlen : e ≤ (decompress lib st.payload (getDataType st.payload)).length) :
    createAssetReadStream lib cfg st (some s) (some e)
      = Except.ok
          (((decompress lib st.payload (getDataType st.payload)).drop s).take (e - s))
    ∧ (∀ o, createAssetReadStream lib cfg st none o
        = Except.ok (decompress lib st.payload (getDataType st.payload)))
    ∧ (∀ o, createAssetReadStream lib cfg st o none
        = Except.ok (decompress lib st.payload (getDataType st.payload))) := by
  unfold createAssetReadStream getAssetPath
  rw [if_pos hfound]
  refine ⟨?_, ?_, ?_⟩
  · simp [bufSubarray, List.drop_take]
  · intro o; cases o <;> rfl
  · intro o; cases o <;> rfl

/-- C9 witness: on a 100-byte uncompressed asset, the range read with
start 10 and end 20 yields exactly the ten bytes at that offset. -/
theorem createAssetReadStream_range_witness :
    createAssetReadStream concreteLib
      { assetsDir := "assets", compressionType := "none", compressionLevel := 0 }
      { payloadExt := "", payload := List.range 100,
        metadataJson :=
          { contentType := "image/png", fileName := none, originalSize := some 100 } }
      (some 10) (some 20)
      = Except.ok [10, 11, 12, 13, 14, 15, 16, 17, 18, 19] :=
  (createAssetReadStream_range concreteLib
      { assetsDir := "assets", compressionType := "none", compressionLevel := 0 }
      { payloadExt := "", payload := List.range 100,
        metadataJson :=
          { contentType := "image/png", fileName := none, originalSize := some 100 } }
      10 20 (by decide) (by decide) (by decide)).1.trans (by rfl)

end AssetDb
